import Mathlib

/-!
Verification of the file-ingestion and request-assembly core of the
`aistudio-mcp-server` repository (`src/index.ts`).

The embedding models:
* `getMimeType` (src/index.ts:195-218) — extension → MIME table with
  `application/octet-stream` fallback, including Node's `path.extname`
  semantics (suffix from the last dot of the final path segment; a dot in
  first position yields the empty extension) and ASCII lower-casing;
* `processFiles` (src/index.ts:220-298) — the File Ingestor: count
  precondition, per-descriptor loop with JavaScript string-truthiness
  branching (`file.content` / `file.path`), base64 encoding of read bytes,
  running size total over path-based entries only, early `break` on
  size overage, `continue` on read failure or malformed descriptor;
* `convertPdfToMarkdown` (src/index.ts:300-357) and `generateContent`
  (src/index.ts:359-409) — the Request Composer side: the `contents`
  array sent to the backend ([prompt text, inlineData parts...]) and the
  generation config. The backend RPC itself is external; the handlers here
  return the request that would be sent, or the error thrown before any
  request is sent.

Modelling choices:
* File bytes are `List Nat` (each entry one byte value). The filesystem is
  an oracle `Fs : String → Except String (List Nat)` keyed by the
  caller-supplied path; `path.resolve`/`path.normalize` (which only affect
  which physical file is read and a logged warning) are absorbed into the
  oracle, and `path.basename` is taken of the caller-supplied path.
* JavaScript truthiness of an optional string field (`undefined`, `null`
  and `""` are falsy) is `truthy : Option String → Bool`.
* `Math.round(n / 1024 / 1024)` on a byte count `n` is modelled exactly on
  rationals as `(2 * n + 1048576) / 2097152` in `Nat` (round half up).
* The SDK's generation config type admits an optional `temperature`;
  the code's config literal sets only `maxOutputTokens`, so the embedded
  handlers always produce `temperature := none`.
* The outer `try/catch` of the per-file loop (src/index.ts:289-294) is
  unreachable in the model (no other statement throws) and is omitted.
-/

/-- Truthiness of a JavaScript string-or-absent value: `undefined` and the
empty string are falsy, any non-empty string is truthy. -/
def truthy : Option String → Bool
  | none => false
  | some s => s != ""

/-- A caller-supplied file descriptor: the loosely-typed objects of the
`files` array (`path?`, `content?` (base64), `name?`, `type?`). -/
structure FileDescriptor where
  path : Option String := none
  content : Option String := none
  name : Option String := none
  type : Option String := none
deriving DecidableEq, Repr

/-- A successfully normalized file (`results.success` entry in
`processFiles`): base64 content, resolved MIME type, display name. -/
structure ProcessedFile where
  content : String
  type : String
  name : Option String
deriving DecidableEq, Repr

/-- A per-file ingestion failure (`results.errors` entry). -/
structure FileError where
  name : Option String
  error : String
deriving DecidableEq, Repr

/-- The partitioned result of `processFiles`. -/
structure ProcessResults where
  success : List ProcessedFile
  errors : List FileError
deriving DecidableEq, Repr

/-- Process-wide configuration read from the environment at startup. -/
structure ServerConfig where
  maxFiles : Nat
  maxTotalFileSize : Nat
  maxOutputTokens : Nat
  defaultModel : String
deriving DecidableEq, Repr

/-- The filesystem oracle: reading the file at a caller-supplied path
either yields its raw bytes or fails with the JS error's string form. -/
def Fs : Type := String → Except String (List Nat)

/-- Node `path.basename`: the part of the path after the last slash. -/
def basename (p : String) : String :=
  String.mk ((p.data.reverse.takeWhile (fun c => c != '/')).reverse)

/-- Node `path.extname`: the suffix of the final path segment from its last
dot; empty when there is no dot or the only dot is the segment's first
character. -/
def extname (p : String) : String :=
  let cs := (basename p).data
  let revTail := cs.reverse.takeWhile (fun c => c != '.')
  if revTail.length = cs.length then ""
  else if revTail.length + 1 = cs.length then ""
  else String.mk ('.' :: revTail.reverse)

/-- ASCII lower-casing of a string (JS `toLowerCase` on the ASCII
extensions that occur in the MIME table). -/
def lowerStr (s : String) : String :=
  String.mk (s.data.map Char.toLower)

/-- The fixed extension → MIME table of `getMimeType`
(src/index.ts:199-215), verbatim. -/
def mimeTypes : List (String × String) :=
  [ (".pdf", "application/pdf")
  , (".jpg", "image/jpeg")
  , (".jpeg", "image/jpeg")
  , (".png", "image/png")
  , (".gif", "image/gif")
  , (".webp", "image/webp")
  , (".svg", "image/svg+xml")
  , (".txt", "text/plain")
  , (".md", "text/markdown")
  , (".json", "application/json")
  , (".xml", "application/xml")
  , (".csv", "text/csv")
  , (".docx", "application/vnd.openxmlformats-officedocument.wordprocessingml.document")
  , (".xlsx", "application/vnd.openxmlformats-officedocument.spreadsheetml.sheet")
  , (".pptx", "application/vnd.openxmlformats-officedocument.presentationml.presentation") ]

/-- `getMimeType` (src/index.ts:195-218): look the lower-cased extension up
in the table, falling back to the generic binary type. -/
def getMimeType (filePath : String) : String :=
  (mimeTypes.lookup (lowerStr (extname filePath))).getD "application/octet-stream"

/-- The MIME resolution of src/index.ts:282:
`file.type || (file.path ? this.getMimeType(file.path) : 'application/octet-stream')`. -/
def resolveMime (f : FileDescriptor) : String :=
  if truthy f.type then f.type.getD ""
  else if truthy f.path then getMimeType (f.path.getD "")
  else "application/octet-stream"

/-- The standard base64 alphabet. -/
def base64Chars : List Char :=
  "ABCDEFGHIJKLMNOPQRSTUVWXYZabcdefghijklmnopqrstuvwxyz0123456789+/".data

/-- The base64 digit for a 6-bit value. -/
def b64At (n : Nat) : Char := base64Chars.getD n 'A'

/-- `Buffer.toString('base64')`: standard base64 with `=` padding, on a
byte list (each entry < 256). -/
def base64Encode : List Nat → String
  | [] => ""
  | [a] => String.mk [b64At (a / 4), b64At (a % 4 * 16), '=', '=']
  | [a, b] => String.mk [b64At (a / 4), b64At (a % 4 * 16 + b / 16), b64At (b % 16 * 4), '=']
  | a :: b :: c :: rest =>
      String.mk [b64At (a / 4), b64At (a % 4 * 16 + b / 16), b64At (b % 16 * 4 + c / 64), b64At (c % 64)]
        ++ base64Encode rest

/-- `Math.round(n / 1024 / 1024)` for a byte count `n`, computed exactly:
round-half-up of `n / 2^20`. -/
def roundMB (n : Nat) : Nat := (2 * n + 1048576) / 2097152

/-- The count-exceeded error message of src/index.ts:222. -/
def countMsg (nFiles maxFiles : Nat) : String :=
  "Too many files: " ++ toString nFiles ++ ". Maximum allowed: " ++ toString maxFiles

/-- The cumulative-size error message of src/index.ts:264. -/
def sizeMsg (total maxTotal : Nat) : String :=
  "Total file size exceeded: " ++ toString (roundMB total) ++ "MB. Maximum allowed: "
    ++ toString (roundMB maxTotal) ++ "MB"

/-- The generic malformed-descriptor message of src/index.ts:277. -/
def missingMsg : String := "Either content or path must be provided for each file"

/-- The display name of an inline entry (src/index.ts:239):
`file.name || 'inline-content'`. -/
def inlineName (f : FileDescriptor) : Option String :=
  if truthy f.name then f.name else some "inline-content"

/-- The per-descriptor loop of `processFiles` (src/index.ts:230-295), with
the running size total as an explicit argument. Branching mirrors the
source: truthy `content` wins, else truthy `path` is read (read failure →
record error, continue; size overage after adding the raw byte length →
record error, `break`), else the generic malformed-descriptor error. -/
def processFilesLoop (cfg : ServerConfig) (fs : Fs) :
    List FileDescriptor → Nat → ProcessResults
  | [], _ => ⟨[], []⟩
  | f :: rest, totalSize =>
    if truthy f.content then
      let r := processFilesLoop cfg fs rest totalSize
      ⟨⟨f.content.getD "", resolveMime f, inlineName f⟩ :: r.success, r.errors⟩
    else if truthy f.path then
      match fs (f.path.getD "") with
      | .error e =>
          let r := processFilesLoop cfg fs rest totalSize
          ⟨r.success, ⟨f.path, "Failed to read file: " ++ e⟩ :: r.errors⟩
      | .ok bytes =>
          let total := totalSize + bytes.length
          if total > cfg.maxTotalFileSize then
            ⟨[], [⟨some (basename (f.path.getD "")), sizeMsg total cfg.maxTotalFileSize⟩]⟩
          else
            let r := processFilesLoop cfg fs rest total
            ⟨⟨base64Encode bytes, resolveMime f, some (basename (f.path.getD ""))⟩ :: r.success,
              r.errors⟩
    else
      let r := processFilesLoop cfg fs rest totalSize
      ⟨r.success, ⟨none, missingMsg⟩ :: r.errors⟩

/-- `processFiles` (src/index.ts:220-298): the count precondition throws
(`Except.error`) before any descriptor is touched; otherwise the loop runs
from a zero running total. -/
def processFiles (cfg : ServerConfig) (fs : Fs) (files : List FileDescriptor) :
    Except String ProcessResults :=
  if files.length > cfg.maxFiles then
    .error (countMsg files.length cfg.maxFiles)
  else
    .ok (processFilesLoop cfg fs files 0)

/-- One element of the `contents` array sent to the backend: either a bare
string (the prompt) or an `{inlineData: {mimeType, data}}` object. -/
inductive ContentPart where
  | text (s : String)
  | inlineData (mimeType : String) (data : String)
deriving DecidableEq, Repr

/-- The request a handler passes to `genAI.models.generateContent`
(src/index.ts:338-344 and 390-396). The SDK's config type admits an
optional `temperature`; the source's config literal sets only
`maxOutputTokens`, so the handlers always leave `temperature` at `none`. -/
structure GenRequest where
  model : String
  contents : List ContentPart
  maxOutputTokens : Nat
  temperature : Option Int
deriving DecidableEq, Repr

/-- One formatted line of the aggregated failure report
(src/index.ts:312-314, 372-374): `err.name ? name + ": " + error : error`. -/
def formatError (e : FileError) : String :=
  if truthy e.name then (e.name.getD "") ++ ": " ++ e.error else e.error

/-- The aggregated multi-line ingestion-failure message
(src/index.ts:315, 375). -/
def aggMsg (errors : List FileError) : String :=
  "File processing errors:\n" ++ String.intercalate "\n" (errors.map formatError)

/-- `args.model || this.defaultModel` (src/index.ts:306, 364). -/
def modelOf (cfg : ServerConfig) (m : Option String) : String :=
  if truthy m then m.getD "" else cfg.defaultModel

/-- The default conversion prompt of `convertPdfToMarkdown`
(src/index.ts:305). -/
def defaultPdfPrompt : String :=
  "Convert this PDF to well-formatted Markdown, preserving structure and formatting. Return only the Markdown content without any additional text."

/-- The inlineData part built from a successfully processed file
(src/index.ts:324-329, 380-385). -/
def filePart (f : ProcessedFile) : ContentPart := .inlineData f.type f.content

/-- The first `contents` element of `convertPdfToMarkdown`: the prompt,
rewritten with the multi-file instruction when more than one file
succeeded (src/index.ts:333-335). -/
def pdfFirstText (prompt : String) (n : Nat) : String :=
  if n > 1 then
    prompt ++ "\n\nProcessing " ++ toString n
      ++ " files. Please provide the converted Markdown for each file with clear section headers indicating the source file name."
  else prompt

/-- Arguments of the `convert_pdf_to_markdown` tool (src/index.ts:300-306):
`files` is required by the schema, `prompt` and `model` are defaulted with
JS truthiness. -/
structure PdfArgs where
  prompt : Option String := none
  files : List FileDescriptor
  model : Option String := none
deriving DecidableEq, Repr

/-- Arguments of the `generate_content` tool (src/index.ts:359-365):
`prompt` is required by the schema, `files` and `model` optional. -/
structure GenArgs where
  prompt : String
  files : Option (List FileDescriptor) := none
  model : Option String := none
deriving DecidableEq, Repr

/-- The effective prompt of `convertPdfToMarkdown` (src/index.ts:305):
`args.prompt || <default conversion prompt>`. -/
def pdfPromptOf (args : PdfArgs) : String :=
  if truthy args.prompt then args.prompt.getD "" else defaultPdfPrompt

/-- `convertPdfToMarkdown` (src/index.ts:300-357) up to the backend RPC:
an `Except.error` is a thrown error (count precondition, aggregated
ingestion failures, or no successful file); an `Except.ok` is the request
handed to the backend. -/
def convertPdfToMarkdown (cfg : ServerConfig) (fs : Fs) (args : PdfArgs) :
    Except String GenRequest :=
  match processFiles cfg fs args.files with
  | .error e => .error e
  | .ok r =>
    if r.errors.length > 0 then .error (aggMsg r.errors)
    else if r.success.length = 0 then .error "No files were successfully processed"
    else .ok
      { model := modelOf cfg args.model
      , contents := ContentPart.text (pdfFirstText (pdfPromptOf args) r.success.length)
          :: r.success.map filePart
      , maxOutputTokens := cfg.maxOutputTokens
      , temperature := none }

/-- The request `generateContent` sends: the prompt text first, then the
file parts, with the process-wide `maxOutputTokens` and no temperature. -/
def mkGenReq (cfg : ServerConfig) (args : GenArgs) (fileParts : List ContentPart) :
    GenRequest :=
  { model := modelOf cfg args.model
  , contents := ContentPart.text args.prompt :: fileParts
  , maxOutputTokens := cfg.maxOutputTokens
  , temperature := none }

/-- `generateContent` (src/index.ts:359-409) up to the backend RPC: files
are processed only when `args.files` is present and non-empty
(src/index.ts:368); any ingestion failure aborts with the aggregated
error, otherwise the request is the prompt followed by the file parts. -/
def generateContent (cfg : ServerConfig) (fs : Fs) (args : GenArgs) :
    Except String GenRequest :=
  match args.files with
  | none => .ok (mkGenReq cfg args [])
  | some l =>
    if l.length > 0 then
      match processFiles cfg fs l with
      | .error e => .error e
      | .ok r =>
        if r.errors.length > 0 then .error (aggMsg r.errors)
        else .ok (mkGenReq cfg args (r.success.map filePart))
    else .ok (mkGenReq cfg args [])

/-- The bytes the filesystem oracle yields for a descriptor's path (empty
on read failure; meaningful only where the read succeeds). -/
def bytesOf (fs : Fs) (f : FileDescriptor) : List Nat :=
  match fs (f.path.getD "") with
  | .ok b => b
  | .error _ => []

/-- Whether reading the descriptor's path succeeds. -/
def readsOk (fs : Fs) (f : FileDescriptor) : Bool :=
  match fs (f.path.getD "") with
  | .ok _ => true
  | .error _ => false

/-- A descriptor the loop can normalize without failing: a truthy inline
`content`, or a truthy `path` that reads successfully. -/
def descOk (fs : Fs) (f : FileDescriptor) : Bool :=
  truthy f.content || (truthy f.path && readsOk fs f)

/-- A path-based, readable descriptor: falsy `content`, truthy `path`,
successful read. -/
def pathBased (fs : Fs) (f : FileDescriptor) : Bool :=
  !truthy f.content && (truthy f.path && readsOk fs f)

/-- The raw byte length the loop would read for a descriptor's path. -/
def descSize (fs : Fs) (f : FileDescriptor) : Nat := (bytesOf fs f).length

/-- The contribution of a descriptor to the running size total: only the
path branch adds bytes (src/index.ts:258-259); inline and malformed
entries add nothing. -/
def pathSize (fs : Fs) (f : FileDescriptor) : Nat :=
  if truthy f.content then 0
  else if truthy f.path then descSize fs f
  else 0

/-- The success record the loop produces for a descriptor it normalizes:
inline content verbatim with the defaulted display name, or the base64 of
the read bytes with the path's basename; MIME type per `resolveMime`. -/
def normalizeDesc (fs : Fs) (f : FileDescriptor) : ProcessedFile :=
  if truthy f.content then
    ⟨f.content.getD "", resolveMime f, inlineName f⟩
  else
    ⟨base64Encode (bytesOf fs f), resolveMime f, some (basename (f.path.getD ""))⟩

/-- The documented default configuration (src/index.ts:22-26). -/
def cfgDefault : ServerConfig := ⟨10, 52428800, 8192, "gemini-2.5-flash"⟩

/-- A filesystem on which every read fails. -/
def fsEmpty : Fs := fun _ => .error "ENOENT"

/-- A small concrete filesystem for witnesses: two readable files. -/
def fsDemo : Fs := fun p =>
  if p = "a.pdf" then .ok [1, 2]
  else if p = "b.bin" then .ok [3, 4, 5]
  else .error "ENOENT"

instance {ε α : Type} [DecidableEq ε] [DecidableEq α] : DecidableEq (Except ε α) := fun x y =>
  match x, y with
  | .ok a, .ok b =>
      if h : a = b then isTrue (by rw [h])
      else isFalse (by intro hc; injection hc; contradiction)
  | .error a, .error b =>
      if h : a = b then isTrue (by rw [h])
      else isFalse (by intro hc; injection hc; contradiction)
  | .ok _, .error _ => isFalse (by intro hc; injection hc)
  | .error _, .ok _ => isFalse (by intro hc; injection hc)

/-- A mixed batch: a valid inline entry followed by an unreadable path. -/
def wMixed : List FileDescriptor :=
  [⟨none, some "QQ==", none, some "text/plain"⟩, ⟨some "missing.pdf", none, none, none⟩]

/-- The ingestion result of `wMixed` under `fsDemo`: one success and one
failure. -/
def wMixedResult : ProcessResults :=
  ⟨[⟨"QQ==", "text/plain", some "inline-content"⟩],
   [⟨some "missing.pdf", "Failed to read file: ENOENT"⟩]⟩

/-- C3: for every batch with more descriptors than `maxCount`, `ingest`
fails immediately with the single count-exceeded error, for every
filesystem oracle alike — so no partial result exists and no file is
read; the failure is a thrown error, not a per-file `IngestFailure`. -/
theorem processFiles_count_exceeded (cfg : ServerConfig) (files : List FileDescriptor)
    (h : files.length > cfg.maxFiles) :
    ∀ fs : Fs, processFiles cfg fs files = .error (countMsg files.length cfg.maxFiles) := by
  intro fs
  unfold processFiles
  rw [if_pos h]

/-- Witness for C3: eleven descriptors against the default limit of ten. -/
theorem processFiles_count_exceeded_witness :
    processFiles cfgDefault fsEmpty (List.replicate 11 ⟨none, none, none, none⟩) =
      .error (countMsg (List.replicate 11 (⟨none, none, none, none⟩ : FileDescriptor)).length
        cfgDefault.maxFiles) :=
  processFiles_count_exceeded cfgDefault _ (by decide) fsEmpty

/-- C9: a descriptor whose `content` is absent or the empty string and
whose `path` is absent or the empty string is treated as providing
neither (string truthiness, not key presence): the loop records the
generic missing-field failure with no display name and continues with the
remaining descriptors at the unchanged running total. -/
theorem empty_content_empty_path_generic_failure (cfg : ServerConfig) (fs : Fs)
    (f : FileDescriptor) (rest : List FileDescriptor) (t : Nat)
    (hc : f.content = none ∨ f.content = some "")
    (hp : f.path = none ∨ f.path = some "") :
    processFilesLoop cfg fs (f :: rest) t =
      ⟨(processFilesLoop cfg fs rest t).success,
       ⟨none, missingMsg⟩ :: (processFilesLoop cfg fs rest t).errors⟩ := by
  have hc' : truthy f.content = false := by rcases hc with h | h <;> simp [truthy, h]
  have hp' : truthy f.path = false := by rcases hp with h | h <;> simp [truthy, h]
  simp [processFilesLoop, hc', hp']

/-- Witness for C9: a descriptor with `content = ""` and `path = ""`,
followed by a well-formed inline descriptor that is still processed. -/
theorem empty_content_empty_path_generic_failure_witness :
    processFilesLoop cfgDefault fsEmpty
      [⟨some "", some "", none, none⟩, ⟨none, some "QQ==", none, some "text/plain"⟩] 0 =
      ⟨[⟨"QQ==", "text/plain", some "inline-content"⟩], [⟨none, missingMsg⟩]⟩ := by
  have h := empty_content_empty_path_generic_failure cfgDefault fsEmpty
    ⟨some "", some "", none, none⟩ [⟨none, some "QQ==", none, some "text/plain"⟩] 0
    (Or.inr rfl) (Or.inr rfl)
  rw [h]
  rfl

/-- C10: when a descriptor has both a truthy `content` and a truthy
`path`, the content branch wins — the success entry carries the inline
content verbatim with the inline display name, the filesystem is never
consulted for it, and the running total is unchanged — yet with no truthy
declared `type` the MIME type is still inferred from the path's
extension. -/
theorem content_wins_mime_from_path (cfg : ServerConfig) (f : FileDescriptor)
    (hc : truthy f.content = true) (hp : truthy f.path = true)
    (ht : truthy f.type = false) :
    ∀ (fs : Fs) (rest : List FileDescriptor) (t : Nat),
      processFilesLoop cfg fs (f :: rest) t =
        ⟨⟨f.content.getD "", getMimeType (f.path.getD ""), inlineName f⟩
            :: (processFilesLoop cfg fs rest t).success,
          (processFilesLoop cfg fs rest t).errors⟩ := by
  intro fs rest t
  simp [processFilesLoop, hc, resolveMime, ht, hp]

/-- Witness for C10: content plus a `.pdf` path on a filesystem where the
path does not even exist — the entry still succeeds, with the type
inferred from the extension. -/
theorem content_wins_mime_from_path_witness :
    processFilesLoop cfgDefault fsEmpty [⟨some "doc.pdf", some "QQ==", none, none⟩] 0 =
      ⟨[⟨"QQ==", "application/pdf", some "inline-content"⟩], []⟩ := by
  have h := content_wins_mime_from_path cfgDefault ⟨some "doc.pdf", some "QQ==", none, none⟩
    (by decide) (by decide) (by decide) fsEmpty [] 0
  rw [h]
  rfl

/-- C6 counterexample: the claim's fixed table does not contain `.mp3`
(the source table at src/index.ts:199-215 has no audio or video entries),
so `song.mp3` resolves to the generic binary type, not `audio/mpeg`; and
a declared empty-string `type` is falsy, so it does not win — the
extension is used instead. -/
theorem resolveMime_counterexample :
    resolveMime ⟨some "song.mp3", none, none, none⟩ = "application/octet-stream"
    ∧ "application/octet-stream" ≠ "audio/mpeg"
    ∧ resolveMime ⟨some "a.pdf", none, none, some ""⟩ = "application/pdf"
    ∧ "application/pdf" ≠ "" := by
  refine ⟨by decide, by decide, by decide, by decide⟩

/-- C6 amended: content-type resolution is a pure function of the
declared type, path presence and extension — a declared non-empty type
wins; otherwise a truthy path's lower-cased extension is looked up in the
fixed table (documents, images and text only; audio such as `.mp3` is not
in the table); otherwise, and for unknown extensions, the generic binary
type. -/
theorem resolveMime_amended (f : FileDescriptor) :
    (∀ t, f.type = some t → t ≠ "" → resolveMime f = t)
    ∧ (truthy f.type = false → truthy f.path = true →
        resolveMime f = getMimeType (f.path.getD ""))
    ∧ (truthy f.type = false → truthy f.path = false →
        resolveMime f = "application/octet-stream")
    ∧ getMimeType "a.pdf" = "application/pdf"
    ∧ getMimeType "a.png" = "image/png"
    ∧ getMimeType "a.jpg" = "image/jpeg"
    ∧ getMimeType "a.mp3" = "application/octet-stream"
    ∧ getMimeType "a.xyz" = "application/octet-stream" := by
  refine ⟨?_, ?_, ?_, by decide, by decide, by decide, by decide, by decide⟩
  · intro t ht hne
    have htr : truthy (some t) = true := by simp [truthy, hne]
    simp [resolveMime, ht, htr]
  · intro h1 h2
    simp [resolveMime, h1, h2]
  · intro h1 h2
    simp [resolveMime, h1, h2]

/-- Witness for C6 amended: a declared non-empty type beats a `.pdf`
extension. -/
theorem resolveMime_amended_witness :
    resolveMime ⟨some "x.pdf", none, none, some "image/png"⟩ = "image/png" :=
  (resolveMime_amended ⟨some "x.pdf", none, none, some "image/png"⟩).1 "image/png" rfl
    (by decide)

/-- C8 counterexample: at a concrete invocation the assembled request's
config has no temperature at all — only `maxOutputTokens` is set
(src/index.ts:341-343, 393-395 set only `maxOutputTokens`). -/
theorem generationConfig_no_temperature_counterexample :
    generateContent cfgDefault fsEmpty ⟨"hi", none, none⟩ =
      .ok ⟨"gemini-2.5-flash", [ContentPart.text "hi"], 8192, none⟩
    ∧ (Option.isSome (none : Option Int)) = false := by
  exact ⟨rfl, rfl⟩

/-- C8 amended: every request either handler assembles carries the
process-wide output-token ceiling in its config, and never a temperature
(the source config literal sets only `maxOutputTokens`). -/
theorem generationConfig_fields (cfg : ServerConfig) (fs : Fs) :
    (∀ (args : GenArgs) (req : GenRequest), generateContent cfg fs args = .ok req →
        req.maxOutputTokens = cfg.maxOutputTokens ∧ req.temperature = none)
    ∧ (∀ (args : PdfArgs) (req : GenRequest), convertPdfToMarkdown cfg fs args = .ok req →
        req.maxOutputTokens = cfg.maxOutputTokens ∧ req.temperature = none) := by
  constructor
  · intro args req h
    unfold generateContent at h
    split at h
    · injection h with h
      subst h
      exact ⟨rfl, rfl⟩
    · split at h
      · split at h
        · injection h
        · split at h
          · injection h
          · injection h with h
            subst h
            exact ⟨rfl, rfl⟩
      · injection h with h
        subst h
        exact ⟨rfl, rfl⟩
  · intro args req h
    unfold convertPdfToMarkdown at h
    split at h
    · injection h
    · split at h
      · injection h
      · split at h
        · injection h
        · injection h with h
          subst h
          exact ⟨rfl, rfl⟩

/-- Witness for C8 amended: the concrete request of a file-less
`generate_content` call under the default configuration. -/
theorem generationConfig_fields_witness :
    ({ model := "gemini-2.5-flash", contents := [ContentPart.text "hi"]
     , maxOutputTokens := 8192, temperature := none } : GenRequest).maxOutputTokens =
        cfgDefault.maxOutputTokens
    ∧ ({ model := "gemini-2.5-flash", contents := [ContentPart.text "hi"]
       , maxOutputTokens := 8192, temperature := none } : GenRequest).temperature = none :=
  (generationConfig_fields cfgDefault fsEmpty).1 ⟨"hi", none, none⟩ _ rfl

/-- Loop invariant for fully successful batches: when every descriptor is
normalizable and the running total plus all path-based bytes stays within
the ceiling, the loop succeeds on every descriptor, in order, with no
failures. -/
theorem processFilesLoop_allOk (cfg : ServerConfig) (fs : Fs) :
    ∀ (files : List FileDescriptor) (t : Nat),
      (∀ f ∈ files, descOk fs f = true) →
      t + (files.map (pathSize fs)).sum ≤ cfg.maxTotalFileSize →
      processFilesLoop cfg fs files t = ⟨files.map (normalizeDesc fs), []⟩ := by
  intro files
  induction files with
  | nil => intro t _ _; rfl
  | cons f rest ih =>
    intro t hok hsize
    have hf := hok f (List.mem_cons_self f rest)
    have hrest : ∀ g ∈ rest, descOk fs g = true :=
      fun g hg => hok g (List.mem_cons_of_mem f hg)
    by_cases hc : truthy f.content = true
    · have hps : pathSize fs f = 0 := by simp [pathSize, hc]
      have hsize' : t + (rest.map (pathSize fs)).sum ≤ cfg.maxTotalFileSize := by
        simp only [List.map_cons, List.sum_cons, hps] at hsize
        omega
      have hr := ih t hrest hsize'
      simp [processFilesLoop, hc, hr, normalizeDesc]
    · have hc' : truthy f.content = false := by
        cases h : truthy f.content
        · rfl
        · exact absurd h hc
      have hpr : truthy f.path = true ∧ readsOk fs f = true := by
        simp [descOk, hc', Bool.and_eq_true] at hf
        exact hf
      cases hfsp : fs (f.path.getD "") with
      | error e =>
        exfalso
        have := hpr.2
        simp [readsOk, hfsp] at this
      | ok bytes =>
        have hps : pathSize fs f = bytes.length := by
          simp [pathSize, hc', hpr.1, descSize, bytesOf, hfsp]
        have hle : t + bytes.length + (rest.map (pathSize fs)).sum ≤ cfg.maxTotalFileSize := by
          simp only [List.map_cons, List.sum_cons, hps] at hsize
          omega
        have hnot : ¬ (t + bytes.length > cfg.maxTotalFileSize) := by omega
        have hr := ih (t + bytes.length) hrest (by omega)
        simp [processFilesLoop, hc', hpr.1, hfsp, hnot, hr, normalizeDesc, bytesOf]

/-- C4: for every batch with at most `maxCount` descriptors in which every
descriptor is normalizable (truthy inline content, or a truthy readable
path) and the cumulative path-based size stays within `maxTotalBytes`,
`ingest` returns no failures and one success per input, in input order. -/
theorem processFiles_all_ok (cfg : ServerConfig) (fs : Fs) (files : List FileDescriptor)
    (hcount : files.length ≤ cfg.maxFiles)
    (hok : ∀ f ∈ files, descOk fs f = true)
    (hsize : (files.map (pathSize fs)).sum ≤ cfg.maxTotalFileSize) :
    processFiles cfg fs files = .ok ⟨files.map (normalizeDesc fs), []⟩
    ∧ (files.map (normalizeDesc fs)).length = files.length := by
  constructor
  · unfold processFiles
    rw [if_neg (by omega)]
    rw [processFilesLoop_allOk cfg fs files 0 hok (by omega)]
  · simp

/-- Witness for C4: one inline descriptor and one readable path. -/
theorem processFiles_all_ok_witness :
    processFiles cfgDefault fsDemo
      [⟨none, some "QQ==", none, some "text/plain"⟩, ⟨some "a.pdf", none, none, none⟩] =
      .ok ⟨[⟨none, some "QQ==", none, some "text/plain"⟩,
            ⟨some "a.pdf", none, none, none⟩].map (normalizeDesc fsDemo), []⟩
    ∧ ([⟨none, some "QQ==", none, some "text/plain"⟩,
        ⟨some "a.pdf", none, none, none⟩].map (normalizeDesc fsDemo)).length = 2 :=
  processFiles_all_ok cfgDefault fsDemo _ (by decide) (by decide) (by decide)

/-- Loop invariant for all-inline batches: the loop never touches the
running total nor the filesystem, so it succeeds on every descriptor at
any starting total. -/
theorem processFilesLoop_inline (cfg : ServerConfig) (fs : Fs) :
    ∀ (files : List FileDescriptor) (t : Nat),
      (∀ f ∈ files, truthy f.content = true) →
      processFilesLoop cfg fs files t = ⟨files.map (normalizeDesc fs), []⟩ := by
  intro files
  induction files with
  | nil => intro t _; rfl
  | cons f rest ih =>
    intro t hin
    have hc := hin f (List.mem_cons_self f rest)
    have hr := ih t (fun g hg => hin g (List.mem_cons_of_mem f hg))
    simp [processFilesLoop, hc, hr, normalizeDesc]

/-- C5: inline descriptors add nothing to the running size total — a batch
of only inline descriptors (within the count limit) never produces a
size-ceiling failure, whatever the contents' sizes and whatever
`maxTotalBytes` is: the loop result is the same at every starting total,
and `ingest` succeeds on all entries. -/
theorem inline_only_never_size_failure (cfg : ServerConfig) (fs : Fs)
    (files : List FileDescriptor)
    (hinline : ∀ f ∈ files, truthy f.content = true)
    (hcount : files.length ≤ cfg.maxFiles) :
    (∀ t : Nat, processFilesLoop cfg fs files t = ⟨files.map (normalizeDesc fs), []⟩)
    ∧ processFiles cfg fs files = .ok ⟨files.map (normalizeDesc fs), []⟩ := by
  constructor
  · intro t
    exact processFilesLoop_inline cfg fs files t hinline
  · unfold processFiles
    rw [if_neg (by omega)]
    rw [processFilesLoop_inline cfg fs files 0 hinline]

/-- Witness for C5: a size ceiling of zero and a large inline content still
produce a clean success. -/
theorem inline_only_never_size_failure_witness :
    (∀ t : Nat, processFilesLoop ⟨10, 0, 8192, "m"⟩ fsEmpty
        [⟨none, some "AAAAAAAAAAAAAAAAAAAAAAAAAAAAAAAAAAAAAAAA", none, none⟩] t =
      ⟨[⟨none, some "AAAAAAAAAAAAAAAAAAAAAAAAAAAAAAAAAAAAAAAA", none,
          none⟩].map (normalizeDesc fsEmpty), []⟩)
    ∧ processFiles ⟨10, 0, 8192, "m"⟩ fsEmpty
        [⟨none, some "AAAAAAAAAAAAAAAAAAAAAAAAAAAAAAAAAAAAAAAA", none, none⟩] =
      .ok ⟨[⟨none, some "AAAAAAAAAAAAAAAAAAAAAAAAAAAAAAAAAAAAAAAA", none,
          none⟩].map (normalizeDesc fsEmpty), []⟩ :=
  inline_only_never_size_failure ⟨10, 0, 8192, "m"⟩ fsEmpty _ (by decide) (by decide)

/-- C1: whenever ingestion returns a non-empty failures list — even with
some successes — both handlers throw the single aggregated multi-line
error (one `name: reason` line per failure) instead of assembling a
request, so nothing is ever sent to the backend. -/
theorem nonempty_failures_abort (cfg : ServerConfig) (fs : Fs)
    (gargs : GenArgs) (pargs : PdfArgs) (l : List FileDescriptor) (r rp : ProcessResults)
    (hgf : gargs.files = some l) (hl : l ≠ [])
    (hg : processFiles cfg fs l = .ok r) (hgne : r.errors ≠ [])
    (hp : processFiles cfg fs pargs.files = .ok rp) (hpne : rp.errors ≠ []) :
    generateContent cfg fs gargs = .error (aggMsg r.errors)
    ∧ convertPdfToMarkdown cfg fs pargs = .error (aggMsg rp.errors) := by
  have hlen : 0 < l.length := List.length_pos.mpr hl
  have herr : 0 < r.errors.length := List.length_pos.mpr hgne
  have herr' : 0 < rp.errors.length := List.length_pos.mpr hpne
  constructor
  · simp [generateContent, hgf, hg, hlen, herr]
  · simp [convertPdfToMarkdown, hp, herr']

/-- Witness for C1: one file succeeded and one failed, and both handlers
still abort with the aggregated error. -/
theorem nonempty_failures_abort_witness :
    generateContent cfgDefault fsDemo ⟨"p", some wMixed, none⟩ =
      .error (aggMsg wMixedResult.errors)
    ∧ convertPdfToMarkdown cfgDefault fsDemo ⟨some "p", wMixed, none⟩ =
      .error (aggMsg wMixedResult.errors) :=
  nonempty_failures_abort cfgDefault fsDemo ⟨"p", some wMixed, none⟩ ⟨some "p", wMixed, none⟩
    wMixed wMixedResult wMixedResult rfl (by decide) (by decide) (by decide) (by decide)
    (by decide)

/-- C7 counterexample: with two successfully ingested files,
`convertPdfToMarkdown` does not keep the prompt as supplied — the first
part of the assembled request is the prompt with the multi-file
processing instruction appended (src/index.ts:333-335). -/
theorem prompt_rewritten_counterexample :
    convertPdfToMarkdown cfgDefault fsEmpty
      ⟨some "p", [⟨none, some "QQ==", none, some "application/pdf"⟩,
                  ⟨none, some "Qg==", none, some "application/pdf"⟩], none⟩ =
      .ok { model := "gemini-2.5-flash"
          , contents :=
              [ ContentPart.text "p\n\nProcessing 2 files. Please provide the converted Markdown for each file with clear section headers indicating the source file name."
              , ContentPart.inlineData "application/pdf" "QQ=="
              , ContentPart.inlineData "application/pdf" "Qg==" ]
          , maxOutputTokens := 8192
          , temperature := none }
    ∧ ("p\n\nProcessing 2 files. Please provide the converted Markdown for each file with clear section headers indicating the source file name.") ≠ "p" := by
  exact ⟨by decide, by decide⟩

/-- C7 amended: each assembled request is a single user turn whose first
part is the prompt text — exactly as supplied for `generateContent`, and
for `convertPdfToMarkdown` the effective prompt, which is rewritten with
the multi-file instruction when more than one file succeeded — followed by
one inlineData part per successfully ingested file, in the order of
`successes`. -/
theorem request_shape (cfg : ServerConfig) (fs : Fs)
    (gargs : GenArgs) (pargs : PdfArgs) (l : List FileDescriptor) (r rp : ProcessResults)
    (hgf : gargs.files = some l) (hl : l ≠ [])
    (hg : processFiles cfg fs l = .ok r) (hge : r.errors = [])
    (hp : processFiles cfg fs pargs.files = .ok rp) (hpe : rp.errors = [])
    (hps : rp.success ≠ []) :
    generateContent cfg fs gargs = .ok
      ⟨modelOf cfg gargs.model,
       ContentPart.text gargs.prompt :: r.success.map filePart,
       cfg.maxOutputTokens, none⟩
    ∧ convertPdfToMarkdown cfg fs pargs = .ok
      ⟨modelOf cfg pargs.model,
       ContentPart.text (pdfFirstText (pdfPromptOf pargs) rp.success.length)
         :: rp.success.map filePart,
       cfg.maxOutputTokens, none⟩
    ∧ (∀ s : String, pdfFirstText s 1 = s)
    ∧ (∀ (s : String) (n : Nat), n > 1 → pdfFirstText s n =
        s ++ ("\n\nProcessing " ++ toString n
          ++ " files. Please provide the converted Markdown for each file with clear section headers indicating the source file name.")) := by
  have hlen : 0 < l.length := List.length_pos.mpr hl
  have hs0 : rp.success.length ≠ 0 := by
    simpa [List.length_eq_zero] using hps
  refine ⟨?_, ?_, ?_, ?_⟩
  · simp [generateContent, hgf, hg, hge, hlen, mkGenReq]
  · simp [convertPdfToMarkdown, hp, hpe, hs0]
  · intro s
    simp [pdfFirstText]
  · intro s n hn
    simp [pdfFirstText, hn, String.append_assoc]

/-- Witness for C7 amended: one inline file through both handlers; with a
single success the pdf prompt is kept as supplied. -/
theorem request_shape_witness :
    generateContent cfgDefault fsDemo
      ⟨"p", some [⟨none, some "QQ==", none, some "text/plain"⟩], none⟩ = .ok
      ⟨modelOf cfgDefault none,
       ContentPart.text "p" ::
         List.map filePart [⟨"QQ==", "text/plain", some "inline-content"⟩],
       cfgDefault.maxOutputTokens, none⟩
    ∧ convertPdfToMarkdown cfgDefault fsDemo
        ⟨some "p", [⟨none, some "QQ==", none, some "text/plain"⟩], none⟩ = .ok
      ⟨modelOf cfgDefault none,
       ContentPart.text (pdfFirstText (pdfPromptOf ⟨some "p",
           [⟨none, some "QQ==", none, some "text/plain"⟩], none⟩) 1) ::
         List.map filePart [⟨"QQ==", "text/plain", some "inline-content"⟩],
       cfgDefault.maxOutputTokens, none⟩
    ∧ (∀ s : String, pdfFirstText s 1 = s)
    ∧ (∀ (s : String) (n : Nat), n > 1 → pdfFirstText s n =
        s ++ ("\n\nProcessing " ++ toString n
          ++ " files. Please provide the converted Markdown for each file with clear section headers indicating the source file name.")) :=
  request_shape cfgDefault fsDemo
    ⟨"p", some [⟨none, some "QQ==", none, some "text/plain"⟩], none⟩
    ⟨some "p", [⟨none, some "QQ==", none, some "text/plain"⟩], none⟩
    [⟨none, some "QQ==", none, some "text/plain"⟩]
    ⟨[⟨"QQ==", "text/plain", some "inline-content"⟩], []⟩
    ⟨[⟨"QQ==", "text/plain", some "inline-content"⟩], []⟩
    rfl (by decide) (by decide) rfl (by decide) rfl (by decide)

/-- Loop invariant for the size-ceiling abort: over path-based readable
descriptors, if the running total first crosses the ceiling at the k-th
descriptor (1-based), the loop returns exactly the first k-1 normalized
entries as successes and exactly one failure for the k-th, naming its
basename and the cumulative total; everything after the k-th is dropped. -/
theorem processFilesLoop_size_abort (cfg : ServerConfig) (fs : Fs) :
    ∀ (files : List FileDescriptor) (k t : Nat),
      (∀ f ∈ files, pathBased fs f = true) →
      1 ≤ k → k ≤ files.length →
      t + ((files.take (k - 1)).map (descSize fs)).sum ≤ cfg.maxTotalFileSize →
      t + ((files.take k).map (descSize fs)).sum > cfg.maxTotalFileSize →
      processFilesLoop cfg fs files t =
        ⟨(files.take (k - 1)).map (normalizeDesc fs),
         [⟨some (basename ((files.getD (k - 1) ⟨none, none, none, none⟩).path.getD "")),
           sizeMsg (t + ((files.take k).map (descSize fs)).sum) cfg.maxTotalFileSize⟩]⟩ := by
  intro files
  induction files with
  | nil =>
    intro k t _ hk1 hk2 _ _
    simp only [List.length_nil] at hk2
    omega
  | cons f rest ih =>
    intro k t hpb hk1 hk2 hfit hover
    have hf := hpb f (List.mem_cons_self f rest)
    have hrest : ∀ g ∈ rest, pathBased fs g = true :=
      fun g hg => hpb g (List.mem_cons_of_mem f hg)
    have hunpack : truthy f.content = false ∧ truthy f.path = true ∧ readsOk fs f = true := by
      simpa [pathBased, Bool.and_eq_true, Bool.not_eq_true'] using hf
    obtain ⟨hc, hp, hro⟩ := hunpack
    cases hfsp : fs (f.path.getD "") with
    | error e => simp [readsOk, hfsp] at hro
    | ok bytes =>
      have hds : descSize fs f = bytes.length := by simp [descSize, bytesOf, hfsp]
      rcases k with _ | k'
      · omega
      rcases k' with _ | j
      · -- k = 1: the very first descriptor crosses the ceiling
        have hover' : t + bytes.length > cfg.maxTotalFileSize := by
          simp only [List.take_succ_cons, List.take_zero, List.map_cons, List.map_nil,
            List.sum_cons, List.sum_nil, hds] at hover
          omega
        simp [processFilesLoop, hc, hp, hfsp, hover', hds]
      · -- k = j + 2: the first descriptor fits, recurse at the new total
        have hk2' : j + 1 ≤ rest.length := by
          simp only [List.length_cons] at hk2
          omega
        simp only [Nat.add_sub_cancel, List.take_succ_cons, List.map_cons, List.sum_cons,
          hds] at hfit hover
        have hnot : ¬ (t + bytes.length > cfg.maxTotalFileSize) := by omega
        have ihres := ih (j + 1) (t + bytes.length) hrest (by omega) hk2'
          (by simpa using (by omega :
            t + bytes.length + ((rest.take j).map (descSize fs)).sum ≤ cfg.maxTotalFileSize))
          (by omega)
        simp only [Nat.add_one_sub_one] at ihres
        simp [processFilesLoop, hc, hp, hfsp, hnot, ihres, normalizeDesc, bytesOf, hds,
          List.take_succ_cons, List.getD_cons_succ, Nat.add_assoc]

/-- C2: for every within-count batch of path-based readable descriptors
whose cumulative raw byte length first exceeds `maxTotalBytes` at the k-th
descriptor, `ingest` succeeds with exactly the first k-1 normalized
entries, exactly one failure — for the k-th descriptor, naming it and the
cumulative overage — and nothing after the k-th in either list. -/
theorem processFiles_size_abort (cfg : ServerConfig) (fs : Fs)
    (files : List FileDescriptor) (k : Nat)
    (hcount : files.length ≤ cfg.maxFiles)
    (hpb : ∀ f ∈ files, pathBased fs f = true)
    (hk1 : 1 ≤ k) (hk2 : k ≤ files.length)
    (hfit : ((files.take (k - 1)).map (descSize fs)).sum ≤ cfg.maxTotalFileSize)
    (hover : ((files.take k).map (descSize fs)).sum > cfg.maxTotalFileSize) :
    processFiles cfg fs files = .ok
      ⟨(files.take (k - 1)).map (normalizeDesc fs),
       [⟨some (basename ((files.getD (k - 1) ⟨none, none, none, none⟩).path.getD "")),
         sizeMsg (((files.take k).map (descSize fs)).sum) cfg.maxTotalFileSize⟩]⟩ := by
  unfold processFiles
  rw [if_neg (by omega)]
  have h := processFilesLoop_size_abort cfg fs files k 0 hpb hk1 hk2 (by omega) (by omega)
  rw [h]
  simp

/-- Witness for C2: two path files of 2 and 3 bytes against a 4-byte
ceiling — the first succeeds, the second is the lone failure (k = 2). -/
theorem processFiles_size_abort_witness :
    processFiles ⟨10, 4, 8192, "m"⟩ fsDemo
      [⟨some "a.pdf", none, none, none⟩, ⟨some "b.bin", none, none, none⟩] = .ok
      ⟨([⟨some "a.pdf", none, none, none⟩,
         ⟨some "b.bin", none, none, none⟩].take 1).map (normalizeDesc fsDemo),
       [⟨some (basename ((([⟨some "a.pdf", none, none, none⟩,
             ⟨some "b.bin", none, none, none⟩] : List FileDescriptor).getD 1
               ⟨none, none, none, none⟩).path.getD "")),
         sizeMsg ((([⟨some "a.pdf", none, none, none⟩,
             ⟨some "b.bin", none, none, none⟩].take 2).map (descSize fsDemo)).sum) 4⟩]⟩ :=
  processFiles_size_abort ⟨10, 4, 8192, "m"⟩ fsDemo
    [⟨some "a.pdf", none, none, none⟩, ⟨some "b.bin", none, none, none⟩] 2
    (by decide) (by decide) (by decide) (by decide) (by decide) (by decide)
